import Mathlib

/-!
# Leader elector component of k0s (`pkg/component/server/leaderelector.go`)

A shallow embedding of the `leaderElector` component and the properties of its
lifecycle methods (`Init`, `Run`, `Stop`, `Healthy`), its query `IsLeader` and
the event-consumption goroutine started by `Run`.

Modelling conventions.

* A Go `error` is `Option GoError`; `none` is `nil`.
* A Go panic is the `Except.error` branch of `Except Panic`.
* A possibly-nil func value / pointer is an `Option`; `none` is `nil`.
* `sync/atomic.Value` is a cell of dynamically typed values (`AtomicValue`);
  `Store` panics on `nil` and on a value whose dynamic type differs from the
  one already stored, `Load` returns `nil` for an empty cell, and the type
  assertion `x.(bool)` panics on anything but a `bool`.
* Methods on `*leaderElector` return the receiver after the call together with
  the returned value and the effects the call had on the outside world
  (collaborator calls, goroutines started, cancel functions invoked).
* The goroutine started by `Run` is the function `loopBody` (one iteration of
  `for { select { ... } }`, given the arm of the `select` that fired) iterated
  by `consume` over the arms that fire, in order.
* The collaborators `leaderelection.NewLeasePool` and `LeasePool.Watch` are
  parameters (`Collaborators`); the client factory is a field of the elector.
-/

namespace K0s

/-- A Go `error` value that is not `nil`, identified by its message. -/
structure GoError where
  msg : String
  deriving DecidableEq, Repr

/-- The value carried by a Go panic. -/
abbrev Panic := String

/-- Dynamically typed values an `interface{}` can hold (the ones relevant to an
`atomic.Value`: a `bool`, and representatives of other dynamic types). -/
inductive GoValue where
  | bool (b : Bool)
  | int (n : Int)
  | str (s : String)
  deriving DecidableEq, Repr

/-- Dynamic types of `GoValue`s. -/
inductive GoType where
  | bool
  | int
  | str
  deriving DecidableEq, Repr

/-- The dynamic type of a value. -/
def GoValue.typeOf : GoValue → GoType
  | .bool _ => .bool
  | .int _ => .int
  | .str _ => .str

/-- Type `sync/atomic.Value`: the zero value holds nothing (`none`). -/
structure AtomicValue where
  v : Option GoValue
  deriving DecidableEq, Repr

/-- The zero value `atomic.Value{}`. -/
def AtomicValue.zero : AtomicValue := { v := none }

/-- Method `(*atomic.Value).Store`: panics on `nil` and on an inconsistently typed value. -/
def AtomicValue.Store (a : AtomicValue) (val : Option GoValue) : Except Panic AtomicValue :=
  match val with
  | none => .error "sync/atomic: store of nil value into Value"
  | some x =>
    match a.v with
    | none => .ok { v := some x }
    | some old =>
      if old.typeOf = x.typeOf then .ok { v := some x }
      else .error "sync/atomic: store of inconsistently typed value into Value"

/-- Method `(*atomic.Value).Load`: `nil` when nothing has been stored. -/
def AtomicValue.Load (a : AtomicValue) : Option GoValue := a.v

/-- The type assertion `x.(bool)` on an `interface{}`. -/
def assertBool : Option GoValue → Except Panic Bool
  | some (.bool b) => .ok b
  | some (.int _) => .error "interface conversion: interface {} is int, not bool"
  | some (.str _) => .error "interface conversion: interface {} is string, not bool"
  | none => .error "interface conversion: interface {} is nil, not bool"

/-- Type `config.ClusterConfig`; its content is not inspected by the elector. -/
structure ClusterConfig where
  raw : String
  deriving DecidableEq, Repr

/-- Type `logrus.Entry`: the fields attached to every line. -/
structure LogEntry where
  fields : List (String × String)
  deriving DecidableEq, Repr

/-- A channel `chan struct{}` as far as the elector touches it: capacity and
whether it has been closed. -/
structure Chan where
  cap : Nat
  closed : Bool
  deriving DecidableEq, Repr

/-- A client to the shared store, as produced by the factory. -/
structure Client where
  id : Nat
  deriving DecidableEq, Repr

/-- Interface `kubeutil.ClientFactory`: `Create()` returns `(client, err)`. -/
structure ClientFactory where
  Create : Unit → Client × Option GoError

/-- Type `leaderelection.LeasePool`, by identity. -/
structure LeasePool where
  id : Nat
  deriving DecidableEq, Repr

/-- Type `leaderelection.LeaseEvents`: the two signal channels, by identity. -/
structure LeaseEvents where
  AcquiredLease : Nat
  LostLease : Nat
  deriving DecidableEq, Repr

/-- A `context.CancelFunc` that is not `nil`, by identity. -/
structure CancelFunc where
  id : Nat
  deriving DecidableEq, Repr

/-- The functions of package `leaderelection` that `Run` calls:
`NewLeasePool(client, name, WithLogger(log))` returns `(pool, err)` and
`pool.Watch()` returns `(events, cancel, err)`. -/
structure Collaborators where
  NewLeasePool : Client → String → LogEntry → LeasePool × Option GoError
  Watch : LeasePool → LeaseEvents × Option CancelFunc × Option GoError

/-- The struct `leaderElector`. -/
structure leaderElector where
  ClusterConfig : Option ClusterConfig
  L : LogEntry
  stopCh : Chan
  leaderStatus : AtomicValue
  kubeClientFactory : ClientFactory
  leaseCancel : Option CancelFunc

/-- Constructor `NewLeaderElector`: stores `false` in a fresh `atomic.Value` and builds the struct. -/
def NewLeaderElector (c : Option ClusterConfig) (kubeClientFactory : ClientFactory) :
    Except Panic leaderElector :=
  match AtomicValue.zero.Store (some (.bool false)) with
  | .error p => .error p
  | .ok d =>
    .ok { ClusterConfig := c
          stopCh := { cap := 0, closed := false }
          kubeClientFactory := kubeClientFactory
          L := { fields := [("component", "endpointreconciler")] }
          leaderStatus := d
          leaseCancel := none }

/-- Function `fmt.Errorf(format ++ ": %v", err)` for the one format string `Run` uses. -/
def Errorf (context : String) (err : GoError) : GoError :=
  { msg := context ++ ": " ++ err.msg }

/-- Calls into collaborators, in the order `Run` makes them. -/
inductive Call where
  | Create
  | NewLeasePool (client : Client) (name : String) (log : LogEntry)
  | Watch (pool : LeasePool)
  deriving DecidableEq, Repr

/-- What a call of `Run` did: the receiver afterwards, the returned error, the
collaborator calls made, and the goroutines started (each identified by the
event stream it selects on). -/
structure RunResult where
  l : leaderElector
  err : Option GoError
  calls : List Call
  spawned : List LeaseEvents

/-- What a call of `Stop` did: the receiver afterwards, the returned error and
the cancel functions invoked. -/
structure StopResult where
  l : leaderElector
  err : Option GoError
  invoked : List CancelFunc

namespace leaderElector

/-- Method `Init`: returns `nil`. -/
def Init (l : leaderElector) : leaderElector × Option GoError := (l, none)

/-- Method `Run`, up to and including the `go` statement. -/
def Run (l : leaderElector) (env : Collaborators) : RunResult :=
  match l.kubeClientFactory.Create () with
  | (_, some err) =>
    { l := l
      err := some (Errorf "can't create kubernetes rest client for lease pool" err)
      calls := [.Create]
      spawned := [] }
  | (client, none) =>
    match env.NewLeasePool client "k0s-endpoint-reconciler" l.L with
    | (_, some err) =>
      { l := l
        err := some err
        calls := [.Create, .NewLeasePool client "k0s-endpoint-reconciler" l.L]
        spawned := [] }
    | (leasePool, none) =>
      match env.Watch leasePool with
      | (_, _, some err) =>
        { l := l
          err := some err
          calls := [.Create, .NewLeasePool client "k0s-endpoint-reconciler" l.L, .Watch leasePool]
          spawned := [] }
      | (events, cancel, none) =>
        { l := { l with leaseCancel := cancel }
          err := none
          calls := [.Create, .NewLeasePool client "k0s-endpoint-reconciler" l.L, .Watch leasePool]
          spawned := [events] }

/-- Method `Stop`: invokes the captured cancel function when there is one. -/
def Stop (l : leaderElector) : StopResult :=
  match l.leaseCancel with
  | some cancel => { l := l, err := none, invoked := [cancel] }
  | none => { l := l, err := none, invoked := [] }

/-- Method `IsLeader`: loads the status cell and asserts it to `bool`. -/
def IsLeader (l : leaderElector) : Except Panic Bool :=
  assertBool l.leaderStatus.Load

/-- Method `Healthy`: returns `nil`. -/
def Healthy (l : leaderElector) : leaderElector × Option GoError := (l, none)

end leaderElector

/-- The arm of the goroutine's `select` that fires. A receive fires when a
signal is delivered on the channel and also, with the zero value, when the
channel is closed; the code discards the received value either way. -/
inductive LeaseEvent where
  | AcquiredLease
  | LostLease
  deriving DecidableEq, Repr

/-- How an iteration of the `for` loop ends: it falls through to the next
iteration, or it leaves the loop (`return` / `break`). -/
inductive LoopCtl where
  | next
  | done
  deriving DecidableEq, Repr

/-- The result of one iteration of the loop. -/
structure IterResult where
  l : leaderElector
  logged : String
  ctl : LoopCtl

/-- One iteration of the goroutine's `for { select { ... } }`, given the arm that fired. -/
def leaderElector.loopBody (l : leaderElector) (ev : LeaseEvent) : Except Panic IterResult :=
  match ev with
  | .AcquiredLease =>
    match l.leaderStatus.Store (some (.bool true)) with
    | .error p => .error p
    | .ok s => .ok { l := { l with leaderStatus := s }, logged := "acquired leader lease", ctl := .next }
  | .LostLease =>
    match l.leaderStatus.Store (some (.bool false)) with
    | .error p => .error p
    | .ok s => .ok { l := { l with leaderStatus := s }, logged := "lost leader lease", ctl := .next }

/-- The state of the goroutine after the given arms have fired, in order: the
elector, and whether the loop is still iterating (`next`, parked in `select`)
or has been left (`done`). -/
def leaderElector.consume (l : leaderElector) : List LeaseEvent → Except Panic (leaderElector × LoopCtl)
  | [] => .ok (l, .next)
  | ev :: rest =>
    match l.loopBody ev with
    | .error p => .error p
    | .ok r =>
      match r.ctl with
      | .next => consume r.l rest
      | .done => .ok (r.l, .done)

/-- The calls and events that drive an elector. -/
inductive Action where
  | Init
  | Run (env : Collaborators)
  | Stop
  | Healthy
  | IsLeader
  | Deliver (ev : LeaseEvent)

/-- Whether the action is a call of `Run`. -/
def Action.isRun : Action → Bool
  | .Run _ => true
  | _ => false

/-- An elector together with the goroutines `Run` has started and that have not
returned, and the cancel functions invoked so far. -/
structure Sys where
  l : leaderElector
  loops : List LeaseEvents
  cancelled : List CancelFunc

/-- The system right after construction. -/
def Sys.new (c : Option ClusterConfig) (f : ClientFactory) : Except Panic Sys :=
  match NewLeaderElector c f with
  | .error p => .error p
  | .ok l => .ok { l := l, loops := [], cancelled := [] }

/-- One action. An event is processed only when a consumption goroutine
exists to receive it; a goroutine leaves `loops` when its iteration ends in `done`. -/
def Sys.exec (s : Sys) : Action → Except Panic Sys
  | .Init => .ok { s with l := s.l.Init.1 }
  | .Healthy => .ok { s with l := s.l.Healthy.1 }
  | .IsLeader =>
    match s.l.IsLeader with
    | .error p => .error p
    | .ok _ => .ok s
  | .Stop => .ok { s with l := s.l.Stop.l, cancelled := s.cancelled ++ s.l.Stop.invoked }
  | .Run env => .ok { s with l := (s.l.Run env).l, loops := s.loops ++ (s.l.Run env).spawned }
  | .Deliver ev =>
    match s.loops with
    | [] => .ok s
    | _ :: gs =>
      match s.l.loopBody ev with
      | .error p => .error p
      | .ok r =>
        match r.ctl with
        | .next => .ok { s with l := r.l }
        | .done => .ok { s with l := r.l, loops := gs }

/-- A sequence of actions, in order. -/
def Sys.execAll (s : Sys) : List Action → Except Panic Sys
  | [] => .ok s
  | a :: rest =>
    match s.exec a with
    | .error p => .error p
    | .ok s' => execAll s' rest

/-! ## Concrete collaborators used to instantiate the theorems -/

/-- A factory whose `Create()` succeeds. -/
def okFactory : ClientFactory := { Create := fun _ => ({ id := 7 }, none) }

/-- A factory whose `Create()` fails. -/
def failingFactory : ClientFactory :=
  { Create := fun _ => ({ id := 0 }, some { msg := "connection refused" }) }

/-- Collaborators that succeed: the watch hands out cancel function 42. -/
def okEnv : Collaborators :=
  { NewLeasePool := fun client _ _ => ({ id := client.id + 1 }, none)
    Watch := fun _ => ({ AcquiredLease := 1, LostLease := 2 }, some { id := 42 }, none) }

/-- Collaborators whose lease-pool creation fails. -/
def poolFailEnv : Collaborators :=
  { NewLeasePool := fun _ _ _ => ({ id := 0 }, some { msg := "invalid lease name" })
    Watch := fun _ => ({ AcquiredLease := 1, LostLease := 2 }, some { id := 42 }, none) }

/-- Collaborators whose watch fails, while still handing back a cancel function. -/
def watchFailEnv : Collaborators :=
  { NewLeasePool := fun client _ _ => ({ id := client.id + 1 }, none)
    Watch := fun _ =>
      ({ AcquiredLease := 1, LostLease := 2 }, some { id := 43 }, some { msg := "watch refused" }) }

/-- An elector that is leader and holds cancel function 42, as after a
successful `Run` and one `AcquiredLease` event. -/
def leaderSample : leaderElector :=
  { ClusterConfig := none
    L := { fields := [("component", "endpointreconciler")] }
    stopCh := { cap := 0, closed := false }
    leaderStatus := { v := some (.bool true) }
    kubeClientFactory := okFactory
    leaseCancel := some { id := 42 } }

/-- An elector as built by `NewLeaderElector` around `okFactory`. -/
def freshSample : leaderElector :=
  { ClusterConfig := none
    L := { fields := [("component", "endpointreconciler")] }
    stopCh := { cap := 0, closed := false }
    leaderStatus := { v := some (.bool false) }
    kubeClientFactory := okFactory
    leaseCancel := none }

/-! ## Auxiliary lemmas -/

/-- Storing a `bool` into a cell that holds a `bool` succeeds. -/
theorem AtomicValue.store_bool_of_bool (a : AtomicValue) (b x : Bool)
    (h : a.v = some (.bool b)) :
    a.Store (some (.bool x)) = .ok { v := some (.bool x) } := by
  simp [AtomicValue.Store, h, GoValue.typeOf]

/-- The constructor never panics; the struct it builds. -/
theorem NewLeaderElector_eq (c : Option ClusterConfig) (f : ClientFactory) :
    NewLeaderElector c f = .ok
      { ClusterConfig := c
        stopCh := { cap := 0, closed := false }
        kubeClientFactory := f
        L := { fields := [("component", "endpointreconciler")] }
        leaderStatus := { v := some (.bool false) }
        leaseCancel := none } := rfl

/-- Method `IsLeader` on a cell that holds a `bool` returns it. -/
theorem leaderElector.isLeader_of_bool (l : leaderElector) (b : Bool)
    (h : l.leaderStatus.v = some (.bool b)) : l.IsLeader = .ok b := by
  simp [leaderElector.IsLeader, AtomicValue.Load, h, assertBool]

/-- Method `Run` never writes the status cell. -/
theorem leaderElector.run_leaderStatus (l : leaderElector) (env : Collaborators) :
    (l.Run env).l.leaderStatus = l.leaderStatus := by
  unfold leaderElector.Run
  split
  · rfl
  · split
    · rfl
    · split <;> rfl

/-- Method `Stop` returns the receiver as it was. -/
theorem leaderElector.stop_l (l : leaderElector) : l.Stop.l = l := by
  unfold leaderElector.Stop
  split <;> rfl

/-- Method `Stop` returns `nil`. -/
theorem leaderElector.stop_err (l : leaderElector) : l.Stop.err = none := by
  unfold leaderElector.Stop
  split <;> rfl

/-- One iteration of the loop on a cell that holds a `bool`: it stores the flag
of the arm that fired, touches no other field and goes on to the next iteration. -/
theorem leaderElector.loopBody_of_bool (l : leaderElector) (b : Bool) (ev : LeaseEvent)
    (h : l.leaderStatus.v = some (.bool b)) :
    ∃ r, l.loopBody ev = .ok r ∧ r.ctl = .next ∧
      r.l = { l with leaderStatus := { v := some (.bool (decide (ev = .AcquiredLease))) } } := by
  cases ev
  · simp [leaderElector.loopBody, AtomicValue.store_bool_of_bool _ b true h]
  · simp [leaderElector.loopBody, AtomicValue.store_bool_of_bool _ b false h]

/-- Whatever arm fires, an iteration that completes does not leave the loop. -/
theorem leaderElector.loopBody_ctl (l : leaderElector) (ev : LeaseEvent) (r : IterResult)
    (h : l.loopBody ev = .ok r) : r.ctl = .next := by
  cases ev <;> simp only [leaderElector.loopBody] at h <;> split at h <;> simp at h <;>
    (subst h; rfl)

/-- The loop on a cell that holds a `bool`, over a non-empty sequence of arms:
it is still iterating, and the cell holds the flag of the last arm. -/
theorem leaderElector.consume_of_bool (evs : List LeaseEvent) (hne : evs ≠ []) :
    ∀ (l : leaderElector) (b : Bool), l.leaderStatus.v = some (.bool b) →
      l.consume evs = .ok
        ({ l with leaderStatus :=
            { v := some (.bool (decide (evs.getLast hne = .AcquiredLease))) } }, .next) := by
  induction evs with
  | nil => exact absurd rfl hne
  | cons ev rest ih =>
    intro l b h
    obtain ⟨r, hr, hctl, hl⟩ := l.loopBody_of_bool b ev h
    cases rest with
    | nil =>
      simp [leaderElector.consume, hr, hctl, hl]
    | cons ev2 rest2 =>
      have hne2 : ev2 :: rest2 ≠ [] := by simp
      have := ih hne2 r.l (decide (ev = .AcquiredLease)) (by rw [hl])
      rw [leaderElector.consume, hr]
      simp only [hctl]
      rw [this, hl]
      simp [List.getLast_cons hne2]

/-- Method `Run` when the factory fails: the wrapped error, one collaborator call, no
goroutine, the receiver as it was. -/
theorem leaderElector.run_create_fails (l : leaderElector) (env : Collaborators) (e : GoError)
    (h : (l.kubeClientFactory.Create ()).2 = some e) :
    l.Run env =
      { l := l
        err := some (Errorf "can't create kubernetes rest client for lease pool" e)
        calls := [.Create]
        spawned := [] } := by
  unfold leaderElector.Run
  split
  · next client err heq =>
    rw [heq] at h
    simp only [Option.some.injEq] at h
    rw [h]
  · next client heq =>
    rw [heq] at h
    simp at h

/-- One action on a system whose status cell holds a `bool`: the action does
not panic, the cell holds a `bool` afterwards, and no goroutine has returned. -/
theorem Sys.exec_of_bool (s : Sys) (a : Action) (b : Bool)
    (h : s.l.leaderStatus.v = some (.bool b)) :
    ∃ s' b', s.exec a = .ok s' ∧ s'.l.leaderStatus.v = some (.bool b') ∧
      s.loops.length ≤ s'.loops.length := by
  cases a with
  | Init => exact ⟨_, b, rfl, h, le_refl _⟩
  | Healthy => exact ⟨_, b, rfl, h, le_refl _⟩
  | Stop =>
    refine ⟨_, b, rfl, ?_, le_refl _⟩
    simp only [leaderElector.stop_l]
    exact h
  | Run env =>
    refine ⟨_, b, rfl, ?_, ?_⟩
    · simp only [leaderElector.run_leaderStatus]
      exact h
    · simp
  | IsLeader =>
    refine ⟨s, b, ?_, h, le_refl _⟩
    simp [Sys.exec, s.l.isLeader_of_bool b h]
  | Deliver ev =>
    obtain ⟨r, hr, hctl, hl⟩ := s.l.loopBody_of_bool b ev h
    cases hloops : s.loops with
    | nil =>
      refine ⟨s, b, ?_, h, ?_⟩
      · simp [Sys.exec, hloops]
      · simp [hloops]
    | cons g gs =>
      refine ⟨{ s with l := r.l }, decide (ev = .AcquiredLease), ?_, ?_, ?_⟩
      · simp [Sys.exec, hloops, hr, hctl]
      · simp [hl]
      · simp [hloops]

/-- A sequence of actions on a system whose status cell holds a `bool`. -/
theorem Sys.execAll_of_bool (acts : List Action) :
    ∀ (s : Sys) (b : Bool), s.l.leaderStatus.v = some (.bool b) →
      ∃ s' b', s.execAll acts = .ok s' ∧ s'.l.leaderStatus.v = some (.bool b') ∧
        s.loops.length ≤ s'.loops.length := by
  induction acts with
  | nil => intro s b h; exact ⟨s, b, rfl, h, le_refl _⟩
  | cons a rest ih =>
    intro s b h
    obtain ⟨s1, b1, h1, hb1, hlen1⟩ := s.exec_of_bool a b h
    obtain ⟨s2, b2, h2, hb2, hlen2⟩ := ih s1 b1 hb1
    refine ⟨s2, b2, ?_, hb2, le_trans hlen1 hlen2⟩
    simp [Sys.execAll, h1, h2]

/-- One action on a system without a consumption goroutine, the action being no
`Run` or the factory failing: the elector is as before and there is still no
goroutine. -/
theorem Sys.exec_no_loop (s : Sys) (a : Action) (b : Bool)
    (hb : s.l.leaderStatus.v = some (.bool b)) (hloops : s.loops = [])
    (hrun : a.isRun = true → (s.l.kubeClientFactory.Create ()).2 ≠ none) :
    ∃ s', s.exec a = .ok s' ∧ s'.l = s.l ∧ s'.loops = [] := by
  cases a with
  | Init => exact ⟨_, rfl, rfl, hloops⟩
  | Healthy => exact ⟨_, rfl, rfl, hloops⟩
  | Stop => exact ⟨_, rfl, s.l.stop_l, hloops⟩
  | Run env =>
    have hne := hrun rfl
    obtain ⟨e, he⟩ := Option.ne_none_iff_exists'.mp hne
    refine ⟨_, rfl, ?_, ?_⟩
    · simp [s.l.run_create_fails env e he]
    · simp [s.l.run_create_fails env e he, hloops]
  | IsLeader =>
    refine ⟨s, ?_, rfl, hloops⟩
    simp [Sys.exec, s.l.isLeader_of_bool b hb]
  | Deliver ev =>
    refine ⟨s, ?_, rfl, hloops⟩
    simp [Sys.exec, hloops]

/-- A sequence of actions on a system without a consumption goroutine, none of
them a `Run` that gets past the factory. -/
theorem Sys.execAll_no_loop (acts : List Action) :
    ∀ (s : Sys) (b : Bool), s.l.leaderStatus.v = some (.bool b) → s.loops = [] →
      (∀ a ∈ acts, a.isRun = true → (s.l.kubeClientFactory.Create ()).2 ≠ none) →
      ∃ s', s.execAll acts = .ok s' ∧ s'.l = s.l ∧ s'.loops = [] := by
  induction acts with
  | nil => intro s b _ hloops _; exact ⟨s, rfl, rfl, hloops⟩
  | cons a rest ih =>
    intro s b hb hloops hrun
    obtain ⟨s1, h1, hl1, hloops1⟩ :=
      s.exec_no_loop a b hb hloops (hrun a (List.mem_cons_self a rest))
    obtain ⟨s2, h2, hl2, hloops2⟩ := ih s1 b (by rw [hl1]; exact hb) hloops1
      (fun a' ha' hr => by rw [hl1]; exact hrun a' (List.mem_cons_of_mem a ha') hr)
    refine ⟨s2, ?_, by rw [hl2, hl1], hloops2⟩
    simp [Sys.execAll, h1, h2]

/-- Method `IsLeader` returns a value only when the cell holds that `bool`. -/
theorem leaderElector.bool_of_isLeader (l : leaderElector) (b : Bool)
    (h : l.IsLeader = .ok b) : l.leaderStatus.v = some (.bool b) := by
  unfold leaderElector.IsLeader AtomicValue.Load at h
  cases hv : l.leaderStatus.v with
  | none => rw [hv] at h; simp [assertBool] at h
  | some x =>
    rw [hv] at h
    cases x <;> simp [assertBool] at h
    rw [h]

/-- The loop over events none of which is `AcquiredLease`, on a cell that holds
`false`: the cell still holds `false`. -/
theorem leaderElector.consume_lost_only (l : leaderElector) (evs : List LeaseEvent)
    (h : l.leaderStatus.v = some (.bool false)) (hlost : ∀ ev ∈ evs, ev = .LostLease) :
    ∃ l', l.consume evs = .ok (l', .next) ∧ l'.leaderStatus.v = some (.bool false) := by
  by_cases hne : evs = []
  · subst hne
    exact ⟨l, rfl, h⟩
  · refine ⟨_, leaderElector.consume_of_bool evs hne l false h, ?_⟩
    simp [hlost _ (List.getLast_mem hne)]

/-- Method `Run` when the factory succeeds and lease-pool creation fails. -/
theorem leaderElector.run_pool_fails (l : leaderElector) (env : Collaborators) (client : Client)
    (e : GoError) (hc : l.kubeClientFactory.Create () = (client, none))
    (hp : (env.NewLeasePool client "k0s-endpoint-reconciler" l.L).2 = some e) :
    l.Run env =
      { l := l
        err := some e
        calls := [.Create, .NewLeasePool client "k0s-endpoint-reconciler" l.L]
        spawned := [] } := by
  unfold leaderElector.Run
  rw [hc]
  simp only
  split
  · next pool err heq =>
    rw [heq] at hp
    simp only [Option.some.injEq] at hp
    rw [hp]
  · next pool heq =>
    rw [heq] at hp
    simp at hp

/-- Method `Run` when the factory and lease-pool creation succeed and the watch fails. -/
theorem leaderElector.run_watch_fails (l : leaderElector) (env : Collaborators) (client : Client)
    (pool : LeasePool) (e : GoError) (hc : l.kubeClientFactory.Create () = (client, none))
    (hp : env.NewLeasePool client "k0s-endpoint-reconciler" l.L = (pool, none))
    (hw : (env.Watch pool).2.2 = some e) :
    l.Run env =
      { l := l
        err := some e
        calls := [.Create, .NewLeasePool client "k0s-endpoint-reconciler" l.L, .Watch pool]
        spawned := [] } := by
  unfold leaderElector.Run
  rw [hc]
  simp only
  rw [hp]
  simp only
  split
  · next events cancel err heq =>
    rw [heq] at hw
    simp only [Option.some.injEq] at hw
    rw [hw]
  · next events cancel heq =>
    rw [heq] at hw
    simp at hw

/-- Method `Run` when the factory, lease-pool creation and the watch succeed. -/
theorem leaderElector.run_ok (l : leaderElector) (env : Collaborators) (client : Client)
    (pool : LeasePool) (events : LeaseEvents) (cancel : Option CancelFunc)
    (hc : l.kubeClientFactory.Create () = (client, none))
    (hp : env.NewLeasePool client "k0s-endpoint-reconciler" l.L = (pool, none))
    (hw : env.Watch pool = (events, cancel, none)) :
    l.Run env =
      { l := { l with leaseCancel := cancel }
        err := none
        calls := [.Create, .NewLeasePool client "k0s-endpoint-reconciler" l.L, .Watch pool]
        spawned := [events] } := by
  unfold leaderElector.Run
  rw [hc]
  simp only
  rw [hp]
  simp only
  rw [hw]

/-! ## The event-consumption loop and the query -/

/-- C1. For every non-empty sequence of `AcquiredLease`/`LostLease` events
processed by the consumption loop, from any starting value of the flag, the
loop processes all of them without panicking and `IsLeader()` afterwards
returns `true` if and only if the last event was `AcquiredLease`. -/
theorem isLeader_after_events_iff_last_acquired (l : leaderElector) (b0 : Bool)
    (evs : List LeaseEvent) (hflag : l.leaderStatus.Load = some (.bool b0)) (hne : evs ≠ []) :
    ∃ l' ctl b, l.consume evs = .ok (l', ctl) ∧ l'.IsLeader = .ok b ∧
      (b = true ↔ evs.getLast hne = .AcquiredLease) := by
  exact ⟨_, .next, decide (evs.getLast hne = .AcquiredLease),
    leaderElector.consume_of_bool evs hne l b0 hflag,
    leaderElector.isLeader_of_bool _ _ rfl, by simp⟩

/-- C1, at an elector whose flag is `true` and the events acquired, lost, acquired, lost. -/
theorem isLeader_after_events_iff_last_acquired_witness :
    ∃ l' ctl b,
      leaderSample.consume [.AcquiredLease, .LostLease, .AcquiredLease, .LostLease]
          = .ok (l', ctl) ∧
        l'.IsLeader = .ok b ∧
        (b = true ↔
          [LeaseEvent.AcquiredLease, .LostLease, .AcquiredLease, .LostLease].getLast (by simp)
            = .AcquiredLease) :=
  isLeader_after_events_iff_last_acquired leaderSample true
    [.AcquiredLease, .LostLease, .AcquiredLease, .LostLease] rfl (by simp)

/-- C2. The elector returned by `NewLeaderElector` has `IsLeader() == false`,
and after any sequence of `Init`, `Healthy`, `Stop` and `IsLeader` calls (and
of events, which nothing consumes) that contains no call of `Run`, `IsLeader()`
is still `false`. -/
theorem isLeader_false_until_run (c : Option ClusterConfig) (f : ClientFactory)
    (acts : List Action) (hnorun : ∀ a ∈ acts, a.isRun = false) :
    ∃ l, NewLeaderElector c f = .ok l ∧ l.IsLeader = .ok false ∧
      ∃ s0 s, Sys.new c f = .ok s0 ∧ s0.l = l ∧ s0.execAll acts = .ok s ∧
        s.l.IsLeader = .ok false ∧ s.loops = [] := by
  obtain ⟨s, hs, hl, hloops⟩ := Sys.execAll_no_loop acts
    { l := { ClusterConfig := c
             stopCh := { cap := 0, closed := false }
             kubeClientFactory := f
             L := { fields := [("component", "endpointreconciler")] }
             leaderStatus := { v := some (.bool false) }
             leaseCancel := none }
      loops := [], cancelled := [] } false rfl rfl
    (fun a ha hr => by rw [hnorun a ha] at hr; exact absurd hr (by simp))
  exact ⟨_, NewLeaderElector_eq c f, rfl, _, s, rfl, rfl, hs, by rw [hl]; rfl, hloops⟩

/-- C2, at the calls `Stop`, `IsLeader`, `Init`, `Healthy`, `Stop`. -/
theorem isLeader_false_until_run_witness :
    ∃ l, NewLeaderElector none okFactory = .ok l ∧
      l.IsLeader = .ok false ∧
      ∃ s0 s, Sys.new none okFactory = .ok s0 ∧ s0.l = l ∧
        s0.execAll [.Stop, .IsLeader, .Init, .Healthy, .Stop] = .ok s ∧
        s.l.IsLeader = .ok false ∧ s.loops = [] :=
  isLeader_false_until_run none okFactory [.Stop, .IsLeader, .Init, .Healthy, .Stop]
    (by intro a ha; simp at ha; rcases ha with h | h | h | h | h <;> subst h <;> rfl)

/-! ## `Run` -/

/-- C3. For an elector constructed with a factory whose `Create()` fails with
`e`, `Run()` returns a non-nil error (the wrapped `e`) after that single
collaborator call, without creating a lease pool or a watch and without
starting a goroutine; `IsLeader()` is `false` right afterwards and after any
further sequence of calls and events. -/
theorem run_fails_when_factory_fails (c : Option ClusterConfig) (f : ClientFactory)
    (env : Collaborators) (e : GoError) (hf : (f.Create ()).2 = some e) :
    ∃ l, NewLeaderElector c f = .ok l ∧
      (l.Run env).err = some (Errorf "can't create kubernetes rest client for lease pool" e) ∧
      (l.Run env).err ≠ none ∧
      (l.Run env).calls = [.Create] ∧
      (l.Run env).spawned = [] ∧
      (l.Run env).l.leaseCancel = none ∧
      (l.Run env).l.IsLeader = .ok false ∧
      ∀ acts : List Action, ∃ s,
        Sys.execAll { l := (l.Run env).l, loops := (l.Run env).spawned, cancelled := [] } acts
          = .ok s ∧ s.l.IsLeader = .ok false ∧ s.loops = [] := by
  refine ⟨_, NewLeaderElector_eq c f, ?_⟩
  rw [leaderElector.run_create_fails _ env e hf]
  refine ⟨rfl, by simp, rfl, rfl, rfl, rfl, ?_⟩
  intro acts
  obtain ⟨s, hs, hl, hloops⟩ := Sys.execAll_no_loop acts
    { l := { ClusterConfig := c
             stopCh := { cap := 0, closed := false }
             kubeClientFactory := f
             L := { fields := [("component", "endpointreconciler")] }
             leaderStatus := { v := some (.bool false) }
             leaseCancel := none }
      loops := [], cancelled := [] } false rfl rfl
    (fun _ _ _ => by simp [hf])
  exact ⟨s, hs, by rw [hl]; rfl, hloops⟩

/-- C3, at the factory that fails with "connection refused". -/
theorem run_fails_when_factory_fails_witness :
    ∃ l, NewLeaderElector none failingFactory = .ok l ∧
      (l.Run okEnv).err = some (Errorf "can't create kubernetes rest client for lease pool"
        { msg := "connection refused" }) ∧
      (l.Run okEnv).err ≠ none ∧
      (l.Run okEnv).calls = [.Create] ∧
      (l.Run okEnv).spawned = [] ∧
      (l.Run okEnv).l.leaseCancel = none ∧
      (l.Run okEnv).l.IsLeader = .ok false ∧
      ∀ acts : List Action, ∃ s,
        Sys.execAll { l := (l.Run okEnv).l, loops := (l.Run okEnv).spawned, cancelled := [] } acts
          = .ok s ∧ s.l.IsLeader = .ok false ∧ s.loops = [] :=
  run_fails_when_factory_fails none failingFactory okEnv { msg := "connection refused" } rfl

/-- C4. If client creation succeeds but lease-pool creation, or the watch on
the created pool, fails with error `e`, then `Run()` returns exactly `e`,
starts no goroutine and leaves the elector as it was: no cancel function is
captured (also when the failed watch handed one back) and the status cell is
unchanged. A later `Stop()` invokes what it would have invoked before this
`Run()`, which is nothing when the elector held no cancel function. -/
theorem run_returns_setup_error (l : leaderElector) (env : Collaborators) (client : Client)
    (e : GoError) (hc : l.kubeClientFactory.Create () = (client, none))
    (hfail : (env.NewLeasePool client "k0s-endpoint-reconciler" l.L).2 = some e ∨
      ((env.NewLeasePool client "k0s-endpoint-reconciler" l.L).2 = none ∧
        (env.Watch (env.NewLeasePool client "k0s-endpoint-reconciler" l.L).1).2.2 = some e)) :
    (l.Run env).err = some e ∧
      (l.Run env).spawned = [] ∧
      (l.Run env).l = l ∧
      (l.Run env).l.leaseCancel = l.leaseCancel ∧
      (l.Run env).l.leaderStatus = l.leaderStatus ∧
      (l.Run env).l.Stop.invoked = l.Stop.invoked ∧
      (l.leaseCancel = none →
        (l.Run env).l.Stop.invoked = [] ∧ (l.Run env).l.Stop.err = none ∧
          (l.Run env).l.Stop.l = l) := by
  have key : (l.Run env).err = some e ∧ (l.Run env).spawned = [] ∧ (l.Run env).l = l := by
    rcases hfail with hp | ⟨hp, hw⟩
    · rw [leaderElector.run_pool_fails l env client e hc hp]
      exact ⟨rfl, rfl, rfl⟩
    · have hp' : env.NewLeasePool client "k0s-endpoint-reconciler" l.L
          = ((env.NewLeasePool client "k0s-endpoint-reconciler" l.L).1, none) := by
        rw [← hp]
      rw [leaderElector.run_watch_fails l env client _ e hc hp' hw]
      exact ⟨rfl, rfl, rfl⟩
  obtain ⟨herr, hsp, hl⟩ := key
  refine ⟨herr, hsp, hl, by rw [hl], by rw [hl], by rw [hl], ?_⟩
  intro hnone
  rw [hl]
  refine ⟨?_, l.stop_err, l.stop_l⟩
  simp [leaderElector.Stop, hnone]

/-- C4, at a fresh elector and a watch that fails while handing back a cancel function. -/
theorem run_returns_setup_error_witness :
    (leaderElector.Run freshSample watchFailEnv).err
        = some { msg := "watch refused" } ∧
      (leaderElector.Run freshSample watchFailEnv).spawned = [] ∧
      (leaderElector.Run freshSample watchFailEnv).l
        = freshSample ∧
      (leaderElector.Run freshSample watchFailEnv).l.leaseCancel
        = none ∧
      (leaderElector.Run freshSample watchFailEnv).l.leaderStatus
        = freshSample.leaderStatus ∧
      (leaderElector.Run freshSample watchFailEnv).l.Stop.invoked
        = (leaderElector.Stop freshSample).invoked ∧
      ((none : Option CancelFunc) = none →
        (leaderElector.Run freshSample watchFailEnv).l.Stop.invoked
            = [] ∧
          (leaderElector.Run freshSample watchFailEnv).l.Stop.err
            = none ∧
          (leaderElector.Run freshSample watchFailEnv).l.Stop.l
            = freshSample) :=
  run_returns_setup_error freshSample watchFailEnv { id := 7 }
    { msg := "watch refused" } rfl (Or.inr ⟨rfl, rfl⟩)

/-- C5. When the factory, lease-pool creation and `Watch()` all succeed,
`Run()` (a function of the elector and the collaborators' answers only, no
event being awaited) returns `nil`, stores the cancel function returned by
`Watch()`, starts exactly one consumption goroutine, on the returned event
stream, and leaves the status cell as it was, so `IsLeader()` answers as
before; if that answer was `false` it is still `false` after the goroutine has
processed any sequence of events without an `AcquiredLease`. -/
theorem run_success_starts_one_loop (l : leaderElector) (env : Collaborators) (client : Client)
    (pool : LeasePool) (events : LeaseEvents) (cancel : Option CancelFunc)
    (hc : l.kubeClientFactory.Create () = (client, none))
    (hp : env.NewLeasePool client "k0s-endpoint-reconciler" l.L = (pool, none))
    (hw : env.Watch pool = (events, cancel, none)) :
    (l.Run env).err = none ∧
      (l.Run env).l.leaseCancel = cancel ∧
      (l.Run env).spawned = [events] ∧
      (l.Run env).spawned.length = 1 ∧
      (l.Run env).l.leaderStatus = l.leaderStatus ∧
      (l.Run env).l.IsLeader = l.IsLeader ∧
      (l.IsLeader = .ok false → ∀ evs : List LeaseEvent, (∀ ev ∈ evs, ev = .LostLease) →
        ∃ l' ctl, (l.Run env).l.consume evs = .ok (l', ctl) ∧ l'.IsLeader = .ok false) := by
  rw [leaderElector.run_ok l env client pool events cancel hc hp hw]
  refine ⟨rfl, rfl, rfl, rfl, rfl, rfl, ?_⟩
  intro hfalse evs hlost
  obtain ⟨l', hl', hv⟩ := leaderElector.consume_lost_only
    { l with leaseCancel := cancel } evs (l.bool_of_isLeader false hfalse) hlost
  exact ⟨l', .next, hl', l'.isLeader_of_bool false hv⟩

/-- C5, at a fresh elector and collaborators that succeed. -/
theorem run_success_starts_one_loop_witness :
    (leaderElector.Run freshSample okEnv).err = none ∧
      (leaderElector.Run freshSample okEnv).l.leaseCancel = some { id := 42 } ∧
      (leaderElector.Run freshSample okEnv).spawned
          = [{ AcquiredLease := 1, LostLease := 2 }] ∧
      (leaderElector.Run freshSample okEnv).spawned.length = 1 ∧
      (leaderElector.Run freshSample okEnv).l.leaderStatus
          = { v := some (.bool false) } ∧
      (leaderElector.Run freshSample okEnv).l.IsLeader
          = leaderElector.IsLeader freshSample ∧
      (leaderElector.IsLeader freshSample = .ok false →
        ∀ evs : List LeaseEvent, (∀ ev ∈ evs, ev = .LostLease) →
        ∃ l' ctl, (leaderElector.Run freshSample okEnv).l.consume evs = .ok (l', ctl) ∧
          l'.IsLeader = .ok false) :=
  run_success_starts_one_loop
    freshSample
    okEnv { id := 7 } { id := 8 } { AcquiredLease := 1, LostLease := 2 } (some { id := 42 })
    rfl rfl rfl

/-! ## `Stop` -/

/-- C6. For every elector that holds no cancel function, `Stop()` invokes
nothing, returns `nil` and leaves the elector, and with it the whole system,
as it was. -/
theorem stop_without_cancel_is_noop (l : leaderElector) (h : l.leaseCancel = none) :
    l.Stop.invoked = [] ∧ l.Stop.err = none ∧ l.Stop.l = l ∧
      ∀ (loops : List LeaseEvents) (cancelled : List CancelFunc),
        Sys.exec { l := l, loops := loops, cancelled := cancelled } .Stop
          = .ok { l := l, loops := loops, cancelled := cancelled } := by
  have hinv : l.Stop.invoked = [] := by simp [leaderElector.Stop, h]
  refine ⟨hinv, l.stop_err, l.stop_l, ?_⟩
  intro loops cancelled
  simp [Sys.exec, hinv, l.stop_l]

/-- C6, at an elector on which `Run` was never called. -/
theorem stop_without_cancel_is_noop_witness :
    freshSample.Stop.invoked = [] ∧ freshSample.Stop.err = none ∧
      freshSample.Stop.l = freshSample ∧
      ∀ (loops : List LeaseEvents) (cancelled : List CancelFunc),
        Sys.exec { l := freshSample, loops := loops, cancelled := cancelled } .Stop
          = .ok { l := freshSample, loops := loops, cancelled := cancelled } :=
  stop_without_cancel_is_noop freshSample rfl

/-- C7, evaluated on the code. Construct an elector, `Init`, `Run` with
collaborators that succeed, process one `AcquiredLease`, then `Stop`: cancel
function 42 is invoked and `IsLeader()` is `true`. The consumption goroutine is
still there; when its `LostLease` arm fires afterwards the flag becomes
`false`, and whatever arms fire after `Stop` the loop goes on to the next
iteration: it has no path that returns. -/
theorem consumption_loop_outlives_stop :
    ∃ s0 s1 s2 s3, Sys.new none okFactory = .ok s0 ∧
      s0.execAll [.Init, .Run okEnv, .Deliver .AcquiredLease] = .ok s1 ∧
      s1.exec .Stop = .ok s2 ∧
      s2.cancelled = [{ id := 42 }] ∧
      s2.l.IsLeader = .ok true ∧
      s2.loops = [{ AcquiredLease := 1, LostLease := 2 }] ∧
      s2.exec (.Deliver .LostLease) = .ok s3 ∧
      s3.l.IsLeader = .ok false ∧
      s3.loops = [{ AcquiredLease := 1, LostLease := 2 }] ∧
      ∀ evs : List LeaseEvent, ∃ l', s2.l.consume evs = .ok (l', .next) := by
  refine ⟨_, _, _, _, rfl, rfl, rfl, rfl, rfl, rfl, rfl, rfl, rfl, ?_⟩
  intro evs
  by_cases hne : evs = []
  · subst hne
    exact ⟨_, rfl⟩
  · exact ⟨_, leaderElector.consume_of_bool evs hne _ true rfl⟩

/-- C8. After a `Run()` that succeeded and captured the cancel function
`cancel`, a first `Stop()` invokes `cancel` and returns `nil`; a second
`Stop()` also returns `nil` and leaves the elector (status cell and stored
cancel function included) exactly as the first `Stop()` left it, the cancel
function still stored. -/
theorem stop_twice_idempotent (l : leaderElector) (env : Collaborators) (client : Client)
    (pool : LeasePool) (events : LeaseEvents) (cancel : CancelFunc)
    (hc : l.kubeClientFactory.Create () = (client, none))
    (hp : env.NewLeasePool client "k0s-endpoint-reconciler" l.L = (pool, none))
    (hw : env.Watch pool = (events, some cancel, none)) :
    (l.Run env).err = none ∧
      (l.Run env).l.Stop.invoked = [cancel] ∧
      (l.Run env).l.Stop.err = none ∧
      (l.Run env).l.Stop.l.Stop.err = none ∧
      (l.Run env).l.Stop.l.Stop.l = (l.Run env).l.Stop.l ∧
      (l.Run env).l.Stop.l.Stop.l.leaderStatus = (l.Run env).l.Stop.l.leaderStatus ∧
      (l.Run env).l.Stop.l.Stop.l.leaseCancel = (l.Run env).l.Stop.l.leaseCancel ∧
      (l.Run env).l.Stop.l.leaseCancel = some cancel := by
  refine ⟨?_, ?_, leaderElector.stop_err _, leaderElector.stop_err _, leaderElector.stop_l _,
    by rw [leaderElector.stop_l], by rw [leaderElector.stop_l], ?_⟩
  · rw [leaderElector.run_ok l env client pool events (some cancel) hc hp hw]
  · rw [leaderElector.run_ok l env client pool events (some cancel) hc hp hw]
    rfl
  · rw [leaderElector.stop_l, leaderElector.run_ok l env client pool events (some cancel) hc hp hw]

/-- C8, at a fresh elector and collaborators that succeed. -/
theorem stop_twice_idempotent_witness :
    (freshSample.Run okEnv).err = none ∧
      (freshSample.Run okEnv).l.Stop.invoked = [{ id := 42 }] ∧
      (freshSample.Run okEnv).l.Stop.err = none ∧
      (freshSample.Run okEnv).l.Stop.l.Stop.err = none ∧
      (freshSample.Run okEnv).l.Stop.l.Stop.l = (freshSample.Run okEnv).l.Stop.l ∧
      (freshSample.Run okEnv).l.Stop.l.Stop.l.leaderStatus
        = (freshSample.Run okEnv).l.Stop.l.leaderStatus ∧
      (freshSample.Run okEnv).l.Stop.l.Stop.l.leaseCancel
        = (freshSample.Run okEnv).l.Stop.l.leaseCancel ∧
      (freshSample.Run okEnv).l.Stop.l.leaseCancel = some { id := 42 } :=
  stop_twice_idempotent freshSample okEnv { id := 7 } { id := 8 }
    { AcquiredLease := 1, LostLease := 2 } { id := 42 } rfl rfl rfl

/-! ## Frame and safety -/

/-- C9. For every elector state, `Init()`, `Healthy()`, `Stop()` and the
synchronous body of `Run()` (whatever the collaborators answer) leave the
status cell unchanged, `Init()` and `Healthy()` return `nil`, and `IsLeader()`
either returns with the system untouched or panics in its type assertion, never
producing a changed state; the only writer is the consumption loop. -/
theorem leaderStatus_single_writer (l : leaderElector) :
    l.Init.1.leaderStatus = l.leaderStatus ∧ l.Init.2 = none ∧
      l.Healthy.1.leaderStatus = l.leaderStatus ∧ l.Healthy.2 = none ∧
      l.Stop.l.leaderStatus = l.leaderStatus ∧
      (∀ env : Collaborators, (l.Run env).l.leaderStatus = l.leaderStatus) ∧
      (∀ (loops : List LeaseEvents) (cancelled : List CancelFunc),
        Sys.exec { l := l, loops := loops, cancelled := cancelled } .IsLeader
            = .ok { l := l, loops := loops, cancelled := cancelled } ∨
          ∃ p, Sys.exec { l := l, loops := loops, cancelled := cancelled } .IsLeader = .error p ∧
            l.IsLeader = .error p) := by
  refine ⟨rfl, rfl, rfl, rfl, by rw [l.stop_l], l.run_leaderStatus, ?_⟩
  intro loops cancelled
  cases h : l.IsLeader with
  | error p => exact Or.inr ⟨p, by simp [Sys.exec, h], rfl⟩
  | ok b => exact Or.inl (by simp [Sys.exec, h])

/-- C10. In every state reached from `NewLeaderElector` by any sequence of
`Init`, `Run` (whatever the collaborators answer), `Stop`, `Healthy` and
`IsLeader` calls and processed events, no step has panicked, the status cell
holds a `bool`, and `IsLeader()` returns it. -/
theorem leaderStatus_always_bool (c : Option ClusterConfig) (f : ClientFactory)
    (acts : List Action) :
    ∃ s0 s b, Sys.new c f = .ok s0 ∧ s0.execAll acts = .ok s ∧
      s.l.leaderStatus.Load = some (.bool b) ∧ s.l.IsLeader = .ok b := by
  obtain ⟨s, b, hs, hb, _⟩ := Sys.execAll_of_bool acts
    { l := { ClusterConfig := c
             stopCh := { cap := 0, closed := false }
             kubeClientFactory := f
             L := { fields := [("component", "endpointreconciler")] }
             leaderStatus := { v := some (.bool false) }
             leaseCancel := none }
      loops := [], cancelled := [] } false rfl
  exact ⟨_, s, b, rfl, hs, hb, s.l.isLeader_of_bool b hb⟩

end K0s
